import Mathlib

/-
Verification of the meeting-minutes service core:
the Model Gateway (src/llm_service.py: LLMService.generate, LLMService.generate_json)
and the Minutes Extractor (src/minutes_service.py: MinutesService.generate_minutes),
with the HTTP status mapping of src/main.py.

The external completion capability (the OpenAI client) is modelled as a
behaviour `Nat → Attempt`: what the capability does on the k-th call of one
`generate` invocation.  Its failures are the three exception classes the
source catches — RateLimitError, APIConnectionError, APIError (every API
exception of the client library falls in one of the three `except` arms,
since RateLimitError and APIConnectionError are matched first and APIError
is their common ancestor).  `time.sleep` calls are recorded as a list of
delays; `json.loads` is an explicit function parameter.
-/

namespace MMApi

/-- Failure classes of the completion capability, as classified by the
three `except` arms of `LLMService.generate` (src/llm_service.py lines
95-112): RateLimitError, APIConnectionError, APIError. -/
inductive LLMError where
  | rateLimit (msg : String)
  | connection (msg : String)
  | apiError (msg : String)
deriving DecidableEq

/-- Outcome of one call of the completion capability. -/
inductive Attempt where
  | success (text : String)
  | failure (err : LLMError)
deriving DecidableEq

/-- Errors raised by the Gateway itself.  `llm e` is a capability failure
re-raised by `generate` (the bare `raise` of the APIConnectionError arm and
the `raise` of the APIError arm); `retriesExhausted` is the
`Exception("All retry attempts exhausted")` of line 114; `invalidJson`
is the malformed-output failure of `generate_json` lines 149-155: its
first field is the JSONDecodeError text carried in the ValueError message,
its second the diagnostic excerpt `raw_response[:500]` emitted at the
raise site. -/
inductive GatewayError where
  | llm (err : LLMError)
  | retriesExhausted
  | invalidJson (parseError : String) (rawExcerpt : String)
deriving DecidableEq

/-- Result of one `generate` invocation: the returned text or raised error,
the sequence of `time.sleep` delays performed (in order, in seconds), and
the number of calls made to the completion capability. -/
structure GenResult where
  result : Except GatewayError String
  sleeps : List Nat
  attempts : Nat

/-- The retry loop `for attempt in range(max_retries)` of
`LLMService.generate` (src/llm_service.py lines 68-114), as a recursion on
the number of loop iterations still allowed (`remaining` starts at
`max_retries` and `attempt` at 0):
* success: return the text (one capability call);
* RateLimitError: sleep `2 ** attempt` and continue;
* APIConnectionError: if `attempt < max_retries - 1` sleep 2 and continue,
  else re-raise the connection error itself;
* APIError: re-raise immediately;
* loop exhausted: raise the terminal retries-exhausted exception. -/
def generate_loop (beh : Nat → Attempt) (max_retries : Nat) :
    Nat → Nat → GenResult
  | _, 0 => ⟨.error .retriesExhausted, [], 0⟩
  | attempt, Nat.succ remaining =>
    match beh attempt with
    | .success text => ⟨.ok text, [], 1⟩
    | .failure (.rateLimit _) =>
      let rest := generate_loop beh max_retries (attempt + 1) remaining
      ⟨rest.result, 2 ^ attempt :: rest.sleeps, rest.attempts + 1⟩
    | .failure (.connection msg) =>
      if attempt + 1 < max_retries then
        let rest := generate_loop beh max_retries (attempt + 1) remaining
        ⟨rest.result, 2 :: rest.sleeps, rest.attempts + 1⟩
      else ⟨.error (.llm (.connection msg)), [], 1⟩
    | .failure (.apiError msg) => ⟨.error (.llm (.apiError msg)), [], 1⟩

/-- `LLMService.generate` with retry budget `max_retries` (default 3 in the
source), run against capability behaviour `beh`. -/
def generate (beh : Nat → Attempt) (max_retries : Nat) : GenResult :=
  generate_loop beh max_retries 0 max_retries

/-- Parsed JSON values, as returned by `json.loads`: null, booleans,
numbers, strings, arrays, and objects (Python dicts; key lists model dicts
produced by the parser, so keys are effectively unique). -/
inductive Json where
  | null
  | bool (b : Bool)
  | num (n : Int)
  | str (s : String)
  | arr (elems : List Json)
  | obj (fields : List (String × Json))

/-- Result of one `generate_json` invocation: the parsed object or raised
error, the sleeps and capability-call count of the underlying `generate`
call, and the number of `json.loads` parse attempts performed. -/
structure GenJsonResult where
  result : Except GatewayError Json
  sleeps : List Nat
  attempts : Nat
  parses : Nat

/-- Whether a character sequence begins with the given pattern (Python
`str.startswith`; characters are code points, as in Python strings). -/
def startsWithChars : List Char → List Char → Bool
  | _, [] => true
  | [], _ :: _ => false
  | c :: cs, p :: ps => c == p && startsWithChars cs ps

/-- Python `str.strip()`: remove leading and trailing whitespace. -/
def pyStrip (cs : List Char) : List Char :=
  ((cs.dropWhile Char.isWhitespace).reverse.dropWhile Char.isWhitespace).reverse

/-- The markdown-fence cleanup of `LLMService.generate_json`
(src/llm_service.py lines 134-145), at the level of code-point sequences:
strip whitespace; drop a leading "```json" (`cleaned[7:]`), else a leading
"```" (`cleaned[3:]`); if the text ends with "```" drop the last three
characters (`cleaned[:-3]`); strip again. -/
def cleanResponse (raw : String) : String :=
  let c₀ := pyStrip raw.data
  let c₁ := if startsWithChars c₀ "```json".data then c₀.drop 7
    else if startsWithChars c₀ "```".data then c₀.drop 3
    else c₀
  let c₂ := if startsWithChars c₁.reverse "```".data.reverse
    then c₁.take (c₁.length - 3) else c₁
  String.mk (pyStrip c₂)

/-- `LLMService.generate_json` (src/llm_service.py lines 116-155): call
`generate` (with the default `max_retries = 3` of the source), clean the
raw text, and parse it with `json.loads` (the `loads` parameter).  On
parse failure raise the ValueError carrying the parse error, alongside the
diagnostic excerpt `raw_response[:500]` logged at the raise site. -/
def generate_json (loads : String → Except String Json)
    (beh : Nat → Attempt) : GenJsonResult :=
  let g := generate beh 3
  match g.result with
  | .error e => ⟨.error e, g.sleeps, g.attempts, 0⟩
  | .ok raw =>
    match loads (cleanResponse raw) with
    | .ok j => ⟨.ok j, g.sleeps, g.attempts, 1⟩
    | .error e => ⟨.error (.invalidJson e (raw.take 500)), g.sleeps,
        g.attempts, 1⟩

/-- The Priority enum of src/models.py lines 19-23. -/
inductive Priority where
  | high
  | medium
  | low
deriving DecidableEq

/-- Python exceptions that can escape the coercion step of
`MinutesService.generate_minutes`: `attributeError` is the AttributeError
raised by `.get` on a value that is not a dict; `typeError` the TypeError
raised by iterating a non-iterable; `valueError` the ValueError raised by
`Priority(...)` on a value outside the enum, carrying the offending raw
value (named in the exception message). -/
inductive ExtractError where
  | attributeError
  | typeError
  | valueError (offending : Json)

/-- src/models.py lines 69-76.  The pydantic per-field type validation is
not modelled: fields hold the parsed JSON values that
`MinutesService.generate_minutes` passes in (the claims under
verification concern defaulting, ordering, enum coercion and non-dict
entries, which Python decides before pydantic sees the values). -/
structure TopicDiscussed where
  topic : Json
  summary : Json
  decisions : Json

/-- src/models.py lines 79-90; `priority` is a real `Priority` because
`generate_minutes` applies the `Priority(...)` enum call itself. -/
structure ActionItem where
  task : Json
  assignee : Json
  deadline : Json
  priority : Priority

/-- src/models.py lines 93-110. -/
structure MeetingMinutesResponse where
  title : Json
  date : Json
  attendees : Json
  topics_discussed : List TopicDiscussed
  action_items : List ActionItem
  next_meeting : Json

/-- Python `dict.get(key, dflt)` on a parsed-JSON object. -/
def lookupD (fields : List (String × Json)) (key : String) (dflt : Json) :
    Json :=
  match fields.lookup key with
  | some v => v
  | none => dflt

/-- Python iteration (`for t in v`) over a parsed JSON value: a list
yields its elements, a dict its keys, a string its characters; null,
booleans and numbers are not iterable (TypeError). -/
def iterElems : Json → Except ExtractError (List Json)
  | .arr xs => .ok xs
  | .obj fields => .ok (fields.map (fun kv => Json.str kv.fst))
  | .str s => .ok (s.data.map (fun c => Json.str (String.mk [c])))
  | _ => .error .typeError

/-- The `Priority(...)` enum call (src/minutes_service.py line 130):
exact value lookup in {"high", "medium", "low"}; any other value raises
`ValueError("<value> is not a valid Priority")`. -/
def Priority.coerce (v : Json) : Except ExtractError Priority :=
  match v with
  | .str s =>
    if s = "high" then .ok .high
    else if s = "medium" then .ok .medium
    else if s = "low" then .ok .low
    else .error (.valueError (.str s))
  | v => .error (.valueError v)

/-- The body of the `topics_discussed` comprehension
(src/minutes_service.py lines 118-122): `t.get` with the documented
defaults; a non-dict entry raises AttributeError at `t.get`. -/
def coerceTopic (t : Json) : Except ExtractError TopicDiscussed :=
  match t with
  | .obj tf => .ok ⟨lookupD tf "topic" (.str "Unknown Topic"),
      lookupD tf "summary" (.str ""),
      lookupD tf "decisions" (.arr [])⟩
  | _ => .error .attributeError

/-- The body of the `action_items` comprehension
(src/minutes_service.py lines 126-131): `a.get` with the documented
defaults and the strict `Priority(...)` coercion; a non-dict entry raises
AttributeError at `a.get`. -/
def coerceAction (a : Json) : Except ExtractError ActionItem :=
  match a with
  | .obj af =>
    match Priority.coerce (lookupD af "priority" (.str "medium")) with
    | .error e => .error e
    | .ok p => .ok ⟨lookupD af "task" (.str ""),
        lookupD af "assignee" (.str "TBD"),
        lookupD af "deadline" .null, p⟩
  | _ => .error .attributeError

/-- A Python list comprehension over parsed JSON entries: coerce each
element in order, propagating the first exception. -/
def coerceList {α : Type} (f : Json → Except ExtractError α) :
    List Json → Except ExtractError (List α)
  | [] => .ok []
  | x :: xs =>
    match f x with
    | .error e => .error e
    | .ok y =>
      match coerceList f xs with
      | .error e => .error e
      | .ok ys => .ok (y :: ys)

/-- The coercion step of `MinutesService.generate_minutes`
(src/minutes_service.py lines 113-135) applied to the object parsed by
`generate_json`: build the validated `MeetingMinutesResponse`, evaluating
the keyword arguments in source order (topics before action items). -/
def generate_minutes (data : Json) :
    Except ExtractError MeetingMinutesResponse :=
  match data with
  | .obj fs =>
    match iterElems (lookupD fs "topics_discussed" (.arr [])) with
    | .error e => .error e
    | .ok tElems =>
      match coerceList coerceTopic tElems with
      | .error e => .error e
      | .ok topics =>
        match iterElems (lookupD fs "action_items" (.arr [])) with
        | .error e => .error e
        | .ok aElems =>
          match coerceList coerceAction aElems with
          | .error e => .error e
          | .ok actions =>
            .ok ⟨lookupD fs "title" (.str "Untitled Meeting"),
              lookupD fs "date" .null,
              lookupD fs "attendees" (.arr []),
              topics, actions,
              lookupD fs "next_meeting" .null⟩
  | _ => .error .attributeError

/-- HTTP statuses of the `/generate-minutes` endpoint. -/
inductive HttpStatus where
  | ok200
  | unprocessable422
  | serverError500
deriving DecidableEq

/-- The exception mapping of the endpoint handler (src/main.py lines
107-124): success returns 200; ValueError (the `Priority(...)`
validation failure) returns 422; every other exception (AttributeError,
TypeError) falls to the generic 500 handler. -/
def endpointStatus :
    Except ExtractError MeetingMinutesResponse → HttpStatus
  | .ok _ => .ok200
  | .error (.valueError _) => .unprocessable422
  | .error .attributeError => .serverError500
  | .error .typeError => .serverError500

/-- C1: with a capability that is rate-limited on the first two attempts and
succeeds on the third, `generate` with `max_retries = 3` makes exactly 3
capability calls, sleeps 1 second before the second attempt and 2 seconds
before the third (the delay after the failure of 0-indexed attempt k being
2 ^ k), and returns the text of the successful third attempt. -/
theorem complete_rate_limited_twice_then_succeeds
    (s : Nat → String) (m₁ m₂ : String) :
    generate (fun k => if k = 0 then .failure (.rateLimit m₁)
      else if k = 1 then .failure (.rateLimit m₂)
      else .success (s k)) 3
      = ⟨.ok (s 2), [1, 2], 3⟩ := rfl

/-- C2: with a capability that is rate-limited on every attempt, `generate`
with `max_retries = 3` makes exactly 3 capability calls and raises the
terminal retries-exhausted failure, which is distinct from the rate-limit
failure of any single attempt. -/
theorem complete_rate_limit_exhausted (m : Nat → String) :
    generate (fun k => .failure (.rateLimit (m k))) 3
      = ⟨.error .retriesExhausted, [1, 2, 4], 3⟩
    ∧ ∀ msg : String,
        GatewayError.retriesExhausted ≠ GatewayError.llm (.rateLimit msg) := by
  refine ⟨rfl, ?_⟩
  intro msg h
  exact GatewayError.noConfusion h

/-- When the capability fails with a connection error on every attempt, the
loop sleeps a fixed 2 seconds after every non-final attempt and re-raises
the final attempt's connection error verbatim. -/
theorem generate_loop_connection (f : Nat → String) (max_retries : Nat) :
    ∀ remaining attempt, attempt + remaining = max_retries → 0 < remaining →
      generate_loop (fun k => .failure (.connection (f k))) max_retries
          attempt remaining
        = ⟨.error (.llm (.connection (f (max_retries - 1)))),
           List.replicate (remaining - 1) 2, remaining⟩ := by
  intro remaining
  induction remaining with
  | zero => intro attempt _ h0; exact absurd h0 (by omega)
  | succ r ih =>
    intro attempt hsum _
    show (if attempt + 1 < max_retries then _ else _) = _
    rcases Nat.eq_zero_or_pos r with hr | hr
    · subst hr
      have hlt : ¬ attempt + 1 < max_retries := by omega
      have hattempt : attempt = max_retries - 1 := by omega
      rw [if_neg hlt, hattempt]
      simp
    · have hlt : attempt + 1 < max_retries := by omega
      have hrest := ih (attempt + 1) (by omega) hr
      simp only [if_pos hlt, hrest]
      have h1 : r + 1 - 1 = (r - 1) + 1 := by omega
      rw [h1, List.replicate_succ]

/-- C6: with a capability that fails with a connection error on every
attempt, `generate` retries with a fixed 2-second delay (not exponential)
under the attempt cap `max_retries`, and the connection failure of the
final attempt propagates verbatim to the caller (not a retries-exhausted
error). -/
theorem complete_connection_failure_propagates
    (f : Nat → String) (n : Nat) (h : 0 < n) :
    generate (fun k => .failure (.connection (f k))) n
      = ⟨.error (.llm (.connection (f (n - 1)))),
         List.replicate (n - 1) 2, n⟩ :=
  generate_loop_connection f n n 0 (by omega) h

/-- Witness for C6 at `n = 3`: three attempts, delays [2, 2], and the third
attempt's connection error raised verbatim. -/
theorem complete_connection_failure_propagates_witness :
    0 < 3 ∧
    generate (fun _ => .failure (.connection "conn down")) 3
      = ⟨.error (.llm (.connection "conn down")), [2, 2], 3⟩ :=
  ⟨by decide, by
    have h := complete_connection_failure_propagates (fun _ => "conn down") 3
      (by decide)
    simpa using h⟩

/-- Every error raised by the retry loop is a re-raised capability failure
or the terminal retries-exhausted error — never a malformed-output error. -/
theorem generate_loop_error_class (beh : Nat → Attempt) (max_retries : Nat) :
    ∀ remaining attempt err,
      (generate_loop beh max_retries attempt remaining).result = .error err →
      err = .retriesExhausted ∨ ∃ e, err = .llm e := by
  intro remaining
  induction remaining with
  | zero =>
    intro attempt err h
    simp only [generate_loop] at h
    have h' : GatewayError.retriesExhausted = err := Except.error.inj h
    exact Or.inl h'.symm
  | succ r ih =>
    intro attempt err h
    cases hbeh : beh attempt with
    | success text =>
      simp only [generate_loop, hbeh] at h
      exact Except.noConfusion h
    | failure e =>
      cases e with
      | rateLimit msg =>
        simp only [generate_loop, hbeh] at h
        exact ih (attempt + 1) err h
      | connection msg =>
        simp only [generate_loop, hbeh] at h
        by_cases hlt : attempt + 1 < max_retries
        · rw [if_pos hlt] at h
          exact ih (attempt + 1) err h
        · rw [if_neg hlt] at h
          have h' : GatewayError.llm (.connection msg) = err :=
            Except.error.inj h
          exact Or.inr ⟨.connection msg, h'.symm⟩
      | apiError msg =>
        simp only [generate_loop, hbeh] at h
        have h' : GatewayError.llm (.apiError msg) = err :=
          Except.error.inj h
        exact Or.inr ⟨.apiError msg, h'.symm⟩

/-- C3: the Gateway never propagates a failure outside its own taxonomy:
every error raised by `generate` is a capability failure re-raised under
its three-category classification or the terminal retries-exhausted
error, and every error raised by `generate_json` is one of those or the
malformed-output error. -/
theorem gateway_error_taxonomy :
    (∀ (beh : Nat → Attempt) (n : Nat) (err : GatewayError),
      (generate beh n).result = .error err →
        err = .retriesExhausted ∨ ∃ e, err = .llm e)
    ∧ (∀ (loads : String → Except String Json) (beh : Nat → Attempt)
        (err : GatewayError),
      (generate_json loads beh).result = .error err →
        err = .retriesExhausted ∨ (∃ p x, err = .invalidJson p x)
          ∨ ∃ e, err = .llm e) := by
  constructor
  · intro beh n err h
    exact generate_loop_error_class beh n n 0 err h
  · intro loads beh err h
    cases hg : (generate beh 3).result with
    | error e =>
      simp only [generate_json, hg] at h
      have h' : e = err := Except.error.inj h
      subst h'
      rcases generate_loop_error_class beh 3 3 0 e hg with h1 | ⟨e₂, h2⟩
      · exact Or.inl h1
      · exact Or.inr (Or.inr ⟨e₂, h2⟩)
    | ok raw =>
      simp only [generate_json, hg] at h
      cases hp : loads (cleanResponse raw) with
      | ok j =>
        simp only [hp] at h
        exact Except.noConfusion h
      | error e =>
        simp only [hp] at h
        have h' : GatewayError.invalidJson e (raw.take 500) = err :=
          Except.error.inj h
        exact Or.inr (Or.inl ⟨e, raw.take 500, h'.symm⟩)

/-- Witness for C3: concrete instances of both conjuncts — a rate-limit
behaviour whose exhausted-retries error is classified, and a capability
behaviour whose malformed output yields the invalid-JSON error. -/
theorem gateway_error_taxonomy_witness :
    (GatewayError.retriesExhausted = .retriesExhausted
      ∨ ∃ e, GatewayError.retriesExhausted = .llm e)
    ∧ (GatewayError.invalidJson "bad" (String.take "oops" 500)
        = .retriesExhausted
      ∨ (∃ p x, GatewayError.invalidJson "bad" (String.take "oops" 500)
          = .invalidJson p x)
      ∨ ∃ e, GatewayError.invalidJson "bad" (String.take "oops" 500)
          = .llm e) :=
  ⟨gateway_error_taxonomy.1 (fun _ => .failure (.rateLimit "rl")) 0
      .retriesExhausted rfl,
   gateway_error_taxonomy.2 (fun _ => .error "bad") (fun _ => .success "oops")
      (.invalidJson "bad" (String.take "oops" 500)) rfl⟩

/-- C4: whenever the completion succeeds but the cleaned text fails to
parse, `generate_json` raises the distinguished malformed-output error
carrying the parse error and the first 500 characters of the raw text,
makes no further completion attempt beyond those of the single `generate`
call, and performs exactly one parse attempt. -/
theorem generate_json_malformed_output (loads : String → Except String Json)
    (beh : Nat → Attempt) (raw perr : String)
    (hok : (generate beh 3).result = .ok raw)
    (hparse : loads (cleanResponse raw) = .error perr) :
    (generate_json loads beh).result
        = .error (.invalidJson perr (raw.take 500))
    ∧ (generate_json loads beh).attempts = (generate beh 3).attempts
    ∧ (generate_json loads beh).parses = 1 := by
  refine ⟨?_, ?_, ?_⟩ <;> simp only [generate_json, hok, hparse]

/-- Witness for C4: a capability that returns the unparseable text
"this is not json" on its first attempt, and a parser rejecting it. -/
theorem generate_json_malformed_output_witness :
    (generate (fun _ => .success "this is not json") 3).result
        = .ok "this is not json"
    ∧ (fun _ => (Except.error "expected value" : Except String Json))
        (cleanResponse "this is not json") = .error "expected value"
    ∧ (generate_json (fun _ => .error "expected value")
        (fun _ => .success "this is not json")).result
        = .error (.invalidJson "expected value"
            (String.take "this is not json" 500))
    ∧ (generate_json (fun _ => .error "expected value")
        (fun _ => .success "this is not json")).attempts
        = (generate (fun _ => .success "this is not json") 3).attempts
    ∧ (generate_json (fun _ => .error "expected value")
        (fun _ => .success "this is not json")).parses = 1 := by
  have h := generate_json_malformed_output
    (fun _ => .error "expected value") (fun _ => .success "this is not json")
    "this is not json" "expected value" rfl rfl
  exact ⟨rfl, rfl, h.1, h.2.1, h.2.2⟩

/-- C5: raw model text wrapping a JSON object in a "```json" fence (with
surrounding whitespace) is stripped by the three-step rule — the tagged
opener (else a bare opener), then the trailing fence — and
`generate_json` returns the object parsed from the inner text. -/
theorem generate_json_strips_fences (loads : String → Except String Json)
    (j : Json) (h : loads "\x7b\"title\":\"X\"\x7d" = .ok j) :
    cleanResponse " ```json\n\x7b\"title\":\"X\"\x7d\n``` "
        = "\x7b\"title\":\"X\"\x7d"
    ∧ cleanResponse "```\n\x7b\"a\":true\x7d\n```" = "\x7b\"a\":true\x7d"
    ∧ (generate_json loads
        (fun _ => .success " ```json\n\x7b\"title\":\"X\"\x7d\n``` ")).result
        = .ok j := by
  have hclean : cleanResponse " ```json\n\x7b\"title\":\"X\"\x7d\n``` "
      = "\x7b\"title\":\"X\"\x7d" := by decide
  have hbare : cleanResponse "```\n\x7b\"a\":true\x7d\n```"
      = "\x7b\"a\":true\x7d" := by decide
  have key : (generate_json loads
      (fun _ => .success " ```json\n\x7b\"title\":\"X\"\x7d\n``` ")).result
      = (match loads
          (cleanResponse " ```json\n\x7b\"title\":\"X\"\x7d\n``` ") with
        | Except.ok j' => (⟨Except.ok j', [], 1, 1⟩ : GenJsonResult)
        | Except.error e => ⟨Except.error (.invalidJson e
            (String.take " ```json\n\x7b\"title\":\"X\"\x7d\n``` " 500)),
            [], 1, 1⟩).result :=
    rfl
  rw [hclean, h] at key
  exact ⟨hclean, hbare, key.trans rfl⟩

/-- Witness for C5: a concrete parser that recognises the inner object. -/
theorem generate_json_strips_fences_witness :
    (fun s => if s = "\x7b\"title\":\"X\"\x7d"
        then Except.ok (Json.obj [("title", Json.str "X")])
        else Except.error "nope") "\x7b\"title\":\"X\"\x7d"
      = .ok (Json.obj [("title", Json.str "X")])
    ∧ cleanResponse " ```json\n\x7b\"title\":\"X\"\x7d\n``` "
        = "\x7b\"title\":\"X\"\x7d"
    ∧ (generate_json
        (fun s => if s = "\x7b\"title\":\"X\"\x7d"
          then Except.ok (Json.obj [("title", Json.str "X")])
          else Except.error "nope")
        (fun _ => .success " ```json\n\x7b\"title\":\"X\"\x7d\n``` ")).result
        = .ok (Json.obj [("title", Json.str "X")]) := by
  have h := generate_json_strips_fences
    (fun s => if s = "\x7b\"title\":\"X\"\x7d"
      then Except.ok (Json.obj [("title", Json.str "X")])
      else Except.error "nope")
    (Json.obj [("title", Json.str "X")]) (by simp)
  exact ⟨by simp, h.1, h.2.2⟩

/-- Shape of a successful coercion: the scalar fields are the `data.get`
results and the two sequences are the successfully coerced element
lists. -/
theorem generate_minutes_ok_fields (fs : List (String × Json))
    (m : MeetingMinutesResponse)
    (h : generate_minutes (.obj fs) = .ok m) :
    m.title = lookupD fs "title" (.str "Untitled Meeting")
    ∧ m.date = lookupD fs "date" .null
    ∧ m.attendees = lookupD fs "attendees" (.arr [])
    ∧ m.next_meeting = lookupD fs "next_meeting" .null
    ∧ (∃ tElems, iterElems (lookupD fs "topics_discussed" (.arr []))
          = .ok tElems
        ∧ coerceList coerceTopic tElems = .ok m.topics_discussed)
    ∧ (∃ aElems, iterElems (lookupD fs "action_items" (.arr []))
          = .ok aElems
        ∧ coerceList coerceAction aElems = .ok m.action_items) := by
  cases h1 : iterElems (lookupD fs "topics_discussed" (.arr [])) with
  | error e => simp [generate_minutes, h1] at h
  | ok tElems =>
    cases h2 : coerceList coerceTopic tElems with
    | error e => simp [generate_minutes, h1, h2] at h
    | ok topics =>
      cases h3 : iterElems (lookupD fs "action_items" (.arr [])) with
      | error e => simp [generate_minutes, h1, h2, h3] at h
      | ok aElems =>
        cases h4 : coerceList coerceAction aElems with
        | error e => simp [generate_minutes, h1, h2, h3, h4] at h
        | ok actions =>
          simp only [generate_minutes, h1, h2, h3, h4] at h
          have hm : (⟨lookupD fs "title" (.str "Untitled Meeting"),
              lookupD fs "date" .null,
              lookupD fs "attendees" (.arr []),
              topics, actions,
              lookupD fs "next_meeting" .null⟩ : MeetingMinutesResponse)
              = m := Except.ok.inj h
          subst hm
          exact ⟨rfl, rfl, rfl, rfl, ⟨tElems, rfl, h2⟩, ⟨aElems, rfl, h4⟩⟩

/-- A successful comprehension is an order-preserving element-wise map:
same length, and the i-th output is the coercion of the i-th input. -/
theorem coerceList_ok_spec {α : Type} (f : Json → Except ExtractError α) :
    ∀ (l : List Json) (l' : List α), coerceList f l = .ok l' →
      l'.length = l.length
      ∧ ∀ i : Nat, l'.get? i = (l.get? i).bind (fun x => (f x).toOption) := by
  intro l
  induction l with
  | nil =>
    intro l' h
    have h0 : ([] : List α) = l' := Except.ok.inj h
    subst h0
    exact ⟨rfl, fun i => rfl⟩
  | cons x xs ih =>
    intro l' h
    cases hf : f x with
    | error e => simp [coerceList, hf] at h
    | ok y =>
      cases hrest : coerceList f xs with
      | error e => simp [coerceList, hf, hrest] at h
      | ok ys =>
        simp only [coerceList, hf, hrest] at h
        have h0 : y :: ys = l' := Except.ok.inj h
        subst h0
        obtain ⟨hlen, hget⟩ := ih ys hrest
        refine ⟨by simp [hlen], ?_⟩
        intro i
        cases i with
        | zero => simp [hf, Except.toOption]
        | succ n => simpa using hget n

/-- A comprehension whose first failing element fails with `err` raises
`err` (the elements before it all coerce successfully). -/
theorem coerceList_error_append {α : Type}
    (f : Json → Except ExtractError α) (x : Json) (l₂ : List Json)
    (err : ExtractError) (hx : f x = .error err) :
    ∀ l₁ : List Json, (∀ y ∈ l₁, ∃ r, f y = .ok r) →
      coerceList f (l₁ ++ x :: l₂) = .error err := by
  intro l₁
  induction l₁ with
  | nil => intro _; simp [coerceList, hx]
  | cons y ys ih =>
    intro h₁
    obtain ⟨r, hr⟩ := h₁ y (by simp)
    have hrec := ih (fun z hz => h₁ z (by simp [hz]))
    simp [coerceList, hr, hrec]

/-- C7: the exact field defaults of `generate_minutes` — when a field is
absent from the parsed JSON: title → "Untitled Meeting", topic name →
"Unknown Topic", summary → "", decisions → empty sequence, task → "",
assignee → "TBD", priority → medium; while date, deadline and
next_meeting pass through as given, defaulting to null (never to an
empty string) when absent. -/
theorem extract_field_defaults :
    (∀ (fs : List (String × Json)) (m : MeetingMinutesResponse),
      generate_minutes (.obj fs) = .ok m →
        (List.lookup "title" fs = none → m.title = .str "Untitled Meeting")
        ∧ m.date = lookupD fs "date" .null
        ∧ (List.lookup "date" fs = none → m.date = .null)
        ∧ m.next_meeting = lookupD fs "next_meeting" .null
        ∧ (List.lookup "next_meeting" fs = none → m.next_meeting = .null))
    ∧ (∀ (tf : List (String × Json)) (t : TopicDiscussed),
      coerceTopic (.obj tf) = .ok t →
        (List.lookup "topic" tf = none → t.topic = .str "Unknown Topic")
        ∧ (List.lookup "summary" tf = none → t.summary = .str "")
        ∧ (List.lookup "decisions" tf = none → t.decisions = .arr []))
    ∧ (∀ (af : List (String × Json)) (a : ActionItem),
      coerceAction (.obj af) = .ok a →
        (List.lookup "task" af = none → a.task = .str "")
        ∧ (List.lookup "assignee" af = none → a.assignee = .str "TBD")
        ∧ (List.lookup "priority" af = none → a.priority = .medium)
        ∧ a.deadline = lookupD af "deadline" .null
        ∧ (List.lookup "deadline" af = none → a.deadline = .null)) := by
  refine ⟨?_, ?_, ?_⟩
  · intro fs m h
    obtain ⟨ht, hd, _, hn, _⟩ := generate_minutes_ok_fields fs m h
    exact ⟨fun h0 => by simp [ht, lookupD, h0], hd,
      fun h0 => by simp [hd, lookupD, h0], hn,
      fun h0 => by simp [hn, lookupD, h0]⟩
  · intro tf t h
    have h0 : (⟨lookupD tf "topic" (.str "Unknown Topic"),
        lookupD tf "summary" (.str ""),
        lookupD tf "decisions" (.arr [])⟩ : TopicDiscussed) = t :=
      Except.ok.inj h
    subst h0
    exact ⟨fun h1 => by simp [lookupD, h1],
      fun h1 => by simp [lookupD, h1],
      fun h1 => by simp [lookupD, h1]⟩
  · intro af a h
    cases hp : Priority.coerce (lookupD af "priority" (.str "medium")) with
    | error e => simp [coerceAction, hp] at h
    | ok p =>
      simp only [coerceAction, hp] at h
      have h0 : (⟨lookupD af "task" (.str ""),
          lookupD af "assignee" (.str "TBD"),
          lookupD af "deadline" .null, p⟩ : ActionItem) = a :=
        Except.ok.inj h
      subst h0
      refine ⟨fun h1 => by simp [lookupD, h1],
        fun h1 => by simp [lookupD, h1], ?_,
        rfl, fun h1 => by simp [lookupD, h1]⟩
      intro h1
      have h2 : lookupD af "priority" (.str "medium") = .str "medium" := by
        simp [lookupD, h1]
      rw [h2] at hp
      have h3 : Except.ok Priority.medium = Except.ok p :=
        (show Priority.coerce (Json.str "medium")
            = Except.ok Priority.medium from rfl).symm.trans hp
      exact (Except.ok.inj h3).symm

/-- Witness for C7: the empty parsed object (and empty topic and action
entries) yield every documented default. -/
theorem extract_field_defaults_witness :
    List.lookup "title" ([] : List (String × Json)) = none
    ∧ generate_minutes (.obj [])
        = .ok ⟨.str "Untitled Meeting", .null, .arr [], [], [], .null⟩
    ∧ (⟨.str "Untitled Meeting", .null, .arr [], [], [],
        .null⟩ : MeetingMinutesResponse).title = .str "Untitled Meeting"
    ∧ (⟨.str "Untitled Meeting", .null, .arr [], [], [],
        .null⟩ : MeetingMinutesResponse).date = .null
    ∧ coerceTopic (.obj []) = .ok ⟨.str "Unknown Topic", .str "", .arr []⟩
    ∧ (⟨.str "Unknown Topic", .str "",
        .arr []⟩ : TopicDiscussed).topic = .str "Unknown Topic"
    ∧ coerceAction (.obj []) = .ok ⟨.str "", .str "TBD", .null, .medium⟩
    ∧ (⟨.str "", .str "TBD", .null,
        .medium⟩ : ActionItem).assignee = .str "TBD"
    ∧ (⟨.str "", .str "TBD", .null,
        .medium⟩ : ActionItem).priority = .medium
    ∧ (⟨.str "", .str "TBD", .null,
        .medium⟩ : ActionItem).deadline = .null := by
  refine ⟨rfl, rfl, ?_, ?_, rfl, ?_, rfl, ?_, ?_, ?_⟩
  · exact (extract_field_defaults.1 [] _ rfl).1 rfl
  · exact (extract_field_defaults.1 [] _ rfl).2.2.1 rfl
  · exact (extract_field_defaults.2.1 [] _ rfl).1 rfl
  · exact (extract_field_defaults.2.2 [] _ rfl).2.1 rfl
  · exact (extract_field_defaults.2.2 [] _ rfl).2.2.1 rfl
  · exact (extract_field_defaults.2.2 [] _ rfl).2.2.2.2 rfl

/-- The `Priority(...)` enum call rejects any value outside
{"high", "medium", "low"}, raising the ValueError that carries the
offending raw value. -/
theorem Priority.coerce_invalid (v : Json) (h1 : v ≠ .str "high")
    (h2 : v ≠ .str "medium") (h3 : v ≠ .str "low") :
    Priority.coerce v = .error (.valueError v) := by
  cases v with
  | str s =>
    have hs1 : ¬ s = "high" := fun h => h1 (by rw [h])
    have hs2 : ¬ s = "medium" := fun h => h2 (by rw [h])
    have hs3 : ¬ s = "low" := fun h => h3 (by rw [h])
    simp only [Priority.coerce, if_neg hs1, if_neg hs2, if_neg hs3]
  | null => rfl
  | bool b => rfl
  | num n => rfl
  | arr xs => rfl
  | obj fields => rfl

/-- An action-item entry whose `priority` key holds a value outside the
enum makes the `ActionItem` construction raise that ValueError. -/
theorem coerceAction_invalid_priority (af : List (String × Json))
    (v : Json) (hv : List.lookup "priority" af = some v)
    (h1 : v ≠ .str "high") (h2 : v ≠ .str "medium") (h3 : v ≠ .str "low") :
    coerceAction (.obj af) = .error (.valueError v) := by
  have hl : lookupD af "priority" (.str "medium") = v := by
    simp [lookupD, hv]
  simp only [coerceAction, hl, Priority.coerce_invalid v h1 h2 h3]

/-- C8: when the parsed JSON is otherwise coercible up to an action item
whose `priority` value is present but outside {high, medium, low},
`generate_minutes` fails with the validation error carrying that
offending raw value (instead of defaulting the field). -/
theorem extract_invalid_priority_fails (fs af : List (String × Json))
    (l₁ l₂ tElems : List Json) (topics : List TopicDiscussed) (v : Json)
    (ht : iterElems (lookupD fs "topics_discussed" (.arr [])) = .ok tElems)
    (htop : coerceList coerceTopic tElems = .ok topics)
    (ha : iterElems (lookupD fs "action_items" (.arr []))
      = .ok (l₁ ++ .obj af :: l₂))
    (hpre : ∀ y ∈ l₁, ∃ r, coerceAction y = .ok r)
    (hv : List.lookup "priority" af = some v)
    (h1 : v ≠ .str "high") (h2 : v ≠ .str "medium") (h3 : v ≠ .str "low") :
    generate_minutes (.obj fs) = .error (.valueError v) := by
  have hact : coerceList coerceAction (l₁ ++ .obj af :: l₂)
      = .error (.valueError v) :=
    coerceList_error_append coerceAction (.obj af) l₂ (.valueError v)
      (coerceAction_invalid_priority af v hv h1 h2 h3) l₁ hpre
  simp only [generate_minutes, ht, htop, ha, hact]

/-- Witness for C8: a parsed object with one action item whose priority is
"urgent". -/
theorem extract_invalid_priority_fails_witness :
    iterElems (lookupD [("action_items",
        Json.arr [.obj [("priority", Json.str "urgent")]])]
        "topics_discussed" (.arr [])) = .ok []
    ∧ iterElems (lookupD [("action_items",
        Json.arr [.obj [("priority", Json.str "urgent")]])]
        "action_items" (.arr []))
      = .ok ([] ++ Json.obj [("priority", Json.str "urgent")] :: [])
    ∧ List.lookup "priority" [("priority", Json.str "urgent")]
      = some (Json.str "urgent")
    ∧ Json.str "urgent" ≠ Json.str "high"
    ∧ generate_minutes (.obj [("action_items",
        Json.arr [.obj [("priority", Json.str "urgent")]])])
      = .error (.valueError (Json.str "urgent")) := by
  refine ⟨rfl, rfl, rfl, by simp, ?_⟩
  exact extract_invalid_priority_fails
    [("action_items", Json.arr [.obj [("priority", Json.str "urgent")]])]
    [("priority", Json.str "urgent")] [] [] [] [] (Json.str "urgent")
    rfl rfl rfl (by simp) rfl (by simp) (by simp) (by simp)

/-- C9: the topics and action items of a successfully produced
`MeetingMinutesResponse` are an order-preserving element-wise image of
the corresponding arrays of the parsed JSON: equal lengths, and the i-th
output element is the coercion of the i-th array entry — no reordering,
deduplication, insertion or dropping. -/
theorem extract_preserves_order (fs : List (String × Json))
    (tElems aElems : List Json) (m : MeetingMinutesResponse)
    (ht : lookupD fs "topics_discussed" (.arr []) = .arr tElems)
    (ha : lookupD fs "action_items" (.arr []) = .arr aElems)
    (hm : generate_minutes (.obj fs) = .ok m) :
    m.topics_discussed.length = tElems.length
    ∧ m.action_items.length = aElems.length
    ∧ (∀ i : Nat, m.topics_discussed.get? i
        = (tElems.get? i).bind (fun t => (coerceTopic t).toOption))
    ∧ (∀ i : Nat, m.action_items.get? i
        = (aElems.get? i).bind (fun a => (coerceAction a).toOption)) := by
  obtain ⟨_, _, _, _, ⟨tE, h1, h2⟩, ⟨aE, h3, h4⟩⟩ :=
    generate_minutes_ok_fields fs m hm
  rw [ht] at h1
  rw [ha] at h3
  have htE : tElems = tE := Except.ok.inj h1
  have haE : aElems = aE := Except.ok.inj h3
  subst htE
  subst haE
  obtain ⟨hl1, hg1⟩ := coerceList_ok_spec coerceTopic tElems _ h2
  obtain ⟨hl2, hg2⟩ := coerceList_ok_spec coerceAction aElems _ h4
  exact ⟨hl1, hl2, hg1, hg2⟩

/-- Witness for C9: two topics and two action items, coerced in order. -/
theorem extract_preserves_order_witness :
    lookupD [("topics_discussed", Json.arr [.obj [("topic", Json.str "A")],
        .obj [("topic", Json.str "B")]]),
      ("action_items", Json.arr [.obj [("task", Json.str "t1")],
        .obj [("task", Json.str "t2")]])] "topics_discussed" (.arr [])
      = .arr [.obj [("topic", Json.str "A")], .obj [("topic", Json.str "B")]]
    ∧ generate_minutes (.obj [("topics_discussed",
        Json.arr [.obj [("topic", Json.str "A")],
          .obj [("topic", Json.str "B")]]),
        ("action_items", Json.arr [.obj [("task", Json.str "t1")],
          .obj [("task", Json.str "t2")]])])
      = .ok ⟨.str "Untitled Meeting", .null, .arr [],
          [⟨.str "A", .str "", .arr []⟩, ⟨.str "B", .str "", .arr []⟩],
          [⟨.str "t1", .str "TBD", .null, .medium⟩,
           ⟨.str "t2", .str "TBD", .null, .medium⟩], .null⟩
    ∧ [⟨.str "A", .str "", .arr []⟩,
       (⟨.str "B", .str "", .arr []⟩ : TopicDiscussed)].length = 2
    ∧ ([⟨.str "A", .str "", .arr []⟩,
       (⟨.str "B", .str "", .arr []⟩ : TopicDiscussed)] : List TopicDiscussed).get? 1
      = some ⟨.str "B", .str "", .arr []⟩
    ∧ ([⟨.str "t1", .str "TBD", .null, .medium⟩,
       (⟨.str "t2", .str "TBD", .null, .medium⟩ : ActionItem)] : List ActionItem).get? 0
      = some ⟨.str "t1", .str "TBD", .null, .medium⟩ := by
  have h := extract_preserves_order
    [("topics_discussed", Json.arr [.obj [("topic", Json.str "A")],
        .obj [("topic", Json.str "B")]]),
      ("action_items", Json.arr [.obj [("task", Json.str "t1")],
        .obj [("task", Json.str "t2")]])]
    [.obj [("topic", Json.str "A")], .obj [("topic", Json.str "B")]]
    [.obj [("task", Json.str "t1")], .obj [("task", Json.str "t2")]]
    ⟨.str "Untitled Meeting", .null, .arr [],
      [⟨.str "A", .str "", .arr []⟩, ⟨.str "B", .str "", .arr []⟩],
      [⟨.str "t1", .str "TBD", .null, .medium⟩,
       ⟨.str "t2", .str "TBD", .null, .medium⟩], .null⟩
    rfl rfl rfl
  exact ⟨rfl, rfl, h.1, (h.2.2.1 1).trans rfl, (h.2.2.2 0).trans rfl⟩

/-- C10: a topics or action-items array entry that is not a JSON object
makes `generate_minutes` raise the AttributeError of `.get` — an
unclassified failure distinct from the priority validation error — so the
endpoint maps it to the generic 500 response, while validation errors
take the 422 path. -/
theorem extract_non_dict_entry_is_server_error :
    generate_minutes (.obj [("action_items", Json.arr [.str "ship it"])])
      = .error .attributeError
    ∧ generate_minutes (.obj [("topics_discussed", Json.arr [.num 3])])
      = .error .attributeError
    ∧ endpointStatus (generate_minutes
        (.obj [("action_items", Json.arr [.str "ship it"])]))
      = .serverError500
    ∧ endpointStatus (.error (.valueError (.str "urgent")))
      = .unprocessable422
    ∧ ∀ v : Json, ExtractError.attributeError ≠ .valueError v := by
  refine ⟨rfl, rfl, rfl, rfl, ?_⟩
  intro v h
  exact ExtractError.noConfusion h

end MMApi
